import Mathlib

/-
Verification of the caching core of the property-listings service:
the Django cache store interactions in properties/signals.py,
properties/utils.py and properties/views.py are shallowly embedded
below and the spec's claims about them are settled as theorems.

Modelling conventions:
  * The cache store is an association list `List (String × String)`
    (key, serialized value); lookups take the first matching pair.
  * Python's `cache.delete(key)` returns truthiness of deletion; it is
    embedded as `cache_delete`, returning the flag and the new store.
  * Reaching the store over the network can fail (redis unreachable);
    operations that the source leaves unguarded are embedded in an
    `Except` so that a raised exception is visible as an `.error`
    result.  A handler that installs no try/except therefore maps a
    failing delete to an `.error`, exactly as CPython propagates it.
  * Python floats are modelled as exact rationals `ℚ`.
-/

set_option autoImplicit false

namespace PropertyListings

/-- A cache store state: association list of key/value pairs. -/
abbrev Store := List (String × String)

/-- Embedding of `cache.delete(key)`: returns whether the key was
present (truthiness of the deleted count) together with the store with
every pair under that key removed. -/
def cache_delete (store : Store) (key : String) : Bool × Store :=
  (store.any (fun p => p.1 == key), store.filter (fun p => p.1 != key))

/-- Embedding of `cache.set(key, value, ttl)` restricted to the key/value
state (TTLs are not observed by any claim about the store contents). -/
def cache_set (store : Store) (key value : String) : Store :=
  (key, value) :: store.filter (fun p => p.1 != key)

/-- Embedding of `cache.get(key)`. -/
def cache_get (store : Store) (key : String) : Option String :=
  store.lookup key

/-- Embedding of `cache.delete(key)` on a possibly unreachable store:
when the store is unreachable the underlying client raises a connection
error, which surfaces as an `.error` (django-redis is configured without
IGNORE_EXCEPTIONS in settings.py, so exceptions propagate). -/
def cache_delete_exc (reachable : Bool) (store : Store) (key : String) :
    Except String (Bool × Store) :=
  if reachable then .ok (cache_delete store key) else .error "ConnectionError"

/-- The fixed key list both signal handlers delete
(signals.py, `cache_keys_to_delete`). -/
def cache_keys_to_delete : List String :=
  ["all_properties", "property_count"]

/-- The `for key in cache_keys_to_delete` loop shared verbatim by both
signal handlers: deletes each key in order, accumulating `deleted_keys`
(the keys whose delete reported presence).  No exception handling, so a
failing delete aborts the loop with an error. -/
def delete_keys_loop (reachable : Bool) :
    List String → List String × Store → Except String (List String × Store)
  | [], acc => .ok acc
  | key :: rest, (deleted_keys, store) =>
    match cache_delete_exc reachable store key with
    | .error e => .error e
    | .ok (was_present, store') =>
      delete_keys_loop reachable rest
        (if was_present then deleted_keys ++ [key] else deleted_keys, store')

/-- Embedding of `invalidate_property_cache_on_save` (post_save handler,
signals.py lines 14-38): deletes `all_properties` and `property_count`,
returning the recorded `deleted_keys` and the new store, or the
propagated exception. -/
def invalidate_property_cache_on_save (reachable : Bool) (store : Store) :
    Except String (List String × Store) :=
  delete_keys_loop reachable cache_keys_to_delete ([], store)

/-- Embedding of `invalidate_property_cache_on_delete` (post_delete
handler, signals.py lines 41-65): its body is identical to the
post_save handler's. -/
def invalidate_property_cache_on_delete (reachable : Bool) (store : Store) :
    Except String (List String × Store) :=
  delete_keys_loop reachable cache_keys_to_delete ([], store)

/-- Key presence as the handlers observe it. -/
def key_present (store : Store) (key : String) : Bool :=
  store.any (fun p => p.1 == key)

theorem lookup_filter_ne_self (store : Store) (k : String) :
    (store.filter (fun p => p.1 != k)).lookup k = none := by
  induction store with
  | nil => rfl
  | cons hd tl ih =>
    obtain ⟨k1, v1⟩ := hd
    by_cases h : k1 = k
    · subst h
      simpa [List.filter_cons] using ih
    · have h1 : (k1 != k) = true := by simpa [bne_iff_ne] using h
      have h2 : (k == k1) = false := by
        simpa using fun c : k = k1 => h c.symm
      simp [List.filter_cons, h1, List.lookup, h2, ih]

theorem lookup_none_filter (store : Store) (k : String) (p : String × String → Bool)
    (h : store.lookup k = none) : (store.filter p).lookup k = none := by
  induction store with
  | nil => rfl
  | cons hd tl ih =>
    obtain ⟨k1, v1⟩ := hd
    cases hbe : (k == k1) with
    | true => simp [List.lookup, hbe] at h
    | false =>
      simp only [List.lookup, hbe] at h
      cases hp : p (k1, v1) <;>
        simp [List.filter_cons, hp, List.lookup, hbe, ih h]

theorem any_filter_ne (store : Store) (k k' : String) (h : k ≠ k') :
    (store.filter (fun p => p.1 != k')).any (fun p => p.1 == k) =
      store.any (fun p => p.1 == k) := by
  induction store with
  | nil => rfl
  | cons hd tl ih =>
    obtain ⟨k1, v1⟩ := hd
    by_cases hk : k1 = k
    · subst hk
      have h1 : (k1 != k') = true := by simpa [bne_iff_ne] using h
      simp [List.filter_cons, h1, List.any_cons]
    · have h2 : (k1 == k) = false := by
        simpa using fun c : k1 = k => hk c
      by_cases hk' : k1 = k'
      · have h1 : (k1 != k') = false := by simp [bne, hk']
        simp [List.filter_cons, h1, List.any_cons, h2, ih]
      · have h1 : (k1 != k') = true := by simpa [bne_iff_ne] using hk'
        simp [List.filter_cons, h1, List.any_cons, h2, ih]

/-- A reachable delete is the pure delete wrapped in `.ok`. -/
theorem cache_delete_exc_true (store : Store) (key : String) :
    cache_delete_exc true store key = .ok (cache_delete store key) := rfl

/-- Computed form of either handler on a reachable store: the result is
the recorded list of the named keys that were present, alongside the
store stripped of both named keys. -/
theorem invalidate_on_save_true_eq (store : Store) :
    invalidate_property_cache_on_save true store =
      .ok (cache_keys_to_delete.filter (key_present store),
        (store.filter (fun p => p.1 != "all_properties")).filter
          (fun p => p.1 != "property_count")) := by
  have hne : ("property_count" : String) ≠ "all_properties" := by decide
  have hany := any_filter_ne store "property_count" "all_properties" hne
  cases h1 : store.any (fun p => p.1 == "all_properties") <;>
    cases h2 : store.any (fun p => p.1 == "property_count") <;>
      simp [invalidate_property_cache_on_save, cache_keys_to_delete,
        delete_keys_loop, cache_delete_exc, cache_delete, key_present,
        h1, h2, hany.trans h2, List.filter_cons]

/-- C2: both invalidation handlers perform the identical action; each
deletes exactly the keys `all_properties` and `property_count`,
recording which of the two were actually present; immediately after
either handler runs, both keys are absent from the resulting store. -/
theorem handlers_identical_and_clear_both_keys (store : Store) :
    invalidate_property_cache_on_save true store =
      invalidate_property_cache_on_delete true store ∧
    invalidate_property_cache_on_save true store =
      .ok (cache_keys_to_delete.filter (key_present store),
        (store.filter (fun p => p.1 != "all_properties")).filter
          (fun p => p.1 != "property_count")) ∧
    ((store.filter (fun p => p.1 != "all_properties")).filter
        (fun p => p.1 != "property_count")).lookup "all_properties" = none ∧
    ((store.filter (fun p => p.1 != "all_properties")).filter
        (fun p => p.1 != "property_count")).lookup "property_count" = none :=
  ⟨rfl, invalidate_on_save_true_eq store,
    lookup_none_filter _ _ _ (lookup_filter_ne_self store "all_properties"),
    lookup_filter_ne_self _ _⟩

/-- C3, counterexample to the claim as stated: with the cache store
unreachable and `all_properties` cached, the post_save handler raises —
the delete's connection error propagates out of the handler instead of
being logged and swallowed (signals.py installs no try/except). -/
theorem invalidation_failure_propagates_counterexample :
    invalidate_property_cache_on_save false [("all_properties", "cached")] =
      .error "ConnectionError" := rfl

/-- C3 amended: a failure of the cache delete inside either handler is
NOT swallowed: the handlers contain no exception handling, so on an
unreachable store both handlers propagate the connection error to the
caller of the mutation that triggered them (for every store state). -/
theorem invalidation_failure_propagates (store : Store) :
    invalidate_property_cache_on_save false store = .error "ConnectionError" ∧
    invalidate_property_cache_on_delete false store = .error "ConnectionError" :=
  ⟨rfl, rfl⟩

/-
Metrics subsystem (properties/utils.py).

`redis_conn.info()` is modelled by `RedisInfo`: the dictionary the code
reads, with every field optional, mirroring the `.get(key, default)`
accesses; reaching the store at all may fail, so the metrics functions
take an `Except String RedisInfo` (the `.error` case is the `except
Exception` path of the source).
-/

/-- The `stats` section of the INFO reply. -/
structure RedisStats where
  keyspace_hits : Option Nat
  keyspace_misses : Option Nat
  deriving Repr, DecidableEq

/-- The INFO reply as read by `get_redis_cache_metrics`. -/
structure RedisInfo where
  stats : Option RedisStats
  redis_version : Option String
  connected_clients : Option Nat
  used_memory_human : Option String
  uptime_in_seconds : Option Nat
  uptime_in_days : Option Nat
  deriving Repr, DecidableEq

/-- The metrics dictionary built by `get_redis_cache_metrics`.  Ratios
are exact rationals (the source's Python floats). -/
structure CacheMetrics where
  hits : Nat
  misses : Nat
  hit_ratio : ℚ
  hit_ratio_percentage : ℚ
  miss_ratio : ℚ
  miss_ratio_percentage : ℚ
  total_operations : Nat
  keyspace_hits : Nat
  keyspace_misses : Nat
  error : Option String
  redis_version : String
  connected_clients : Nat
  used_memory_human : String
  uptime_in_seconds : Nat
  uptime_in_days : Nat
  deriving Repr, DecidableEq

/-- Python's `round(x, 2)` on the exact-rational model: round to the
nearest multiple of 1/100 (ties of the binary float are approximated by
round-to-nearest on the rational). -/
def pyRound2 (x : ℚ) : ℚ := (round (x * 100) : ℤ) / 100

/-- Embedding of `get_redis_cache_metrics` (utils.py lines 14-103).
On a reachable store it reads `keyspace_hits`/`keyspace_misses` from the
`stats` section (default 0), computes `hit_ratio = hits/total` and
`miss_ratio = misses/total` guarded by `total > 0`, and fills the info
fields.  On any failure it returns the zeroed dictionary annotated with
the error string. -/
def get_redis_cache_metrics (conn : Except String RedisInfo) : CacheMetrics :=
  match conn with
  | .ok redis_info =>
    let stats_section := redis_info.stats.getD ⟨none, none⟩
    let keyspace_hits := stats_section.keyspace_hits.getD 0
    let keyspace_misses := stats_section.keyspace_misses.getD 0
    let total_operations := keyspace_hits + keyspace_misses
    let hit_ratio : ℚ :=
      if total_operations > 0 then (keyspace_hits : ℚ) / (total_operations : ℚ) else 0
    let miss_ratio : ℚ :=
      if total_operations > 0 then (keyspace_misses : ℚ) / (total_operations : ℚ) else 0
    { hits := keyspace_hits
      misses := keyspace_misses
      hit_ratio := hit_ratio
      hit_ratio_percentage := pyRound2 (hit_ratio * 100)
      miss_ratio := miss_ratio
      miss_ratio_percentage := pyRound2 (miss_ratio * 100)
      total_operations := total_operations
      keyspace_hits := keyspace_hits
      keyspace_misses := keyspace_misses
      error := none
      redis_version := redis_info.redis_version.getD "unknown"
      connected_clients := redis_info.connected_clients.getD 0
      used_memory_human := redis_info.used_memory_human.getD "0B"
      uptime_in_seconds := redis_info.uptime_in_seconds.getD 0
      uptime_in_days := redis_info.uptime_in_days.getD 0 }
  | .error e =>
    { hits := 0
      misses := 0
      hit_ratio := 0
      hit_ratio_percentage := 0
      miss_ratio := 0
      miss_ratio_percentage := 0
      total_operations := 0
      keyspace_hits := 0
      keyspace_misses := 0
      error := some e
      redis_version := "unknown"
      connected_clients := 0
      used_memory_human := "0B"
      uptime_in_seconds := 0
      uptime_in_days := 0 }

/-- C1: for every INFO reply, the snapshot computes
`hit_ratio = hits/(hits+misses)` when `hits+misses > 0` and `0`
otherwise, and `miss_ratio = 1 - hit_ratio` under the same guard
(`0` when the denominator is zero); the denominator is exactly
`hits + misses`, never a separate attempt count, and no smoothing is
applied. -/
theorem snapshot_ratio_exact (info : RedisInfo) :
    (get_redis_cache_metrics (.ok info)).hit_ratio =
      (if (get_redis_cache_metrics (.ok info)).hits
            + (get_redis_cache_metrics (.ok info)).misses > 0 then
        ((get_redis_cache_metrics (.ok info)).hits : ℚ) /
          (((get_redis_cache_metrics (.ok info)).hits : ℚ)
            + ((get_redis_cache_metrics (.ok info)).misses : ℚ))
      else 0) ∧
    (get_redis_cache_metrics (.ok info)).miss_ratio =
      (if (get_redis_cache_metrics (.ok info)).hits
            + (get_redis_cache_metrics (.ok info)).misses > 0 then
        1 - (get_redis_cache_metrics (.ok info)).hit_ratio
      else 0) ∧
    (get_redis_cache_metrics (.ok info)).total_operations =
      (get_redis_cache_metrics (.ok info)).hits
        + (get_redis_cache_metrics (.ok info)).misses := by
  have e1 : (get_redis_cache_metrics (.ok info)).hit_ratio =
      (if (get_redis_cache_metrics (.ok info)).hits
            + (get_redis_cache_metrics (.ok info)).misses > 0 then
        ((get_redis_cache_metrics (.ok info)).hits : ℚ) /
          (((get_redis_cache_metrics (.ok info)).hits
              + (get_redis_cache_metrics (.ok info)).misses : ℕ) : ℚ)
      else 0) := rfl
  have e2 : (get_redis_cache_metrics (.ok info)).miss_ratio =
      (if (get_redis_cache_metrics (.ok info)).hits
            + (get_redis_cache_metrics (.ok info)).misses > 0 then
        ((get_redis_cache_metrics (.ok info)).misses : ℚ) /
          (((get_redis_cache_metrics (.ok info)).hits
              + (get_redis_cache_metrics (.ok info)).misses : ℕ) : ℚ)
      else 0) := rfl
  set h := (get_redis_cache_metrics (.ok info)).hits
  set m := (get_redis_cache_metrics (.ok info)).misses
  by_cases hpos : h + m > 0
  · have hne : ((h : ℚ) + (m : ℚ)) ≠ 0 := by
      have : (0 : ℚ) < ((h + m : ℕ) : ℚ) := by exact_mod_cast hpos
      push_cast at this
      linarith
    refine ⟨?_, ?_, rfl⟩
    · rw [e1, if_pos hpos, if_pos hpos, Nat.cast_add]
    · rw [e2, e1]
      simp only [if_pos hpos, Nat.cast_add]
      rw [eq_sub_iff_add_eq, div_add_div_same, add_comm (m : ℚ) (h : ℚ)]
      exact div_self hne
  · exact ⟨by rw [e1, if_neg hpos, if_neg hpos], by rw [e2, if_neg hpos, if_neg hpos], rfl⟩

/-- C6: for every failure to reach the cache store, the snapshot does
not raise: it returns a metrics dictionary whose hits, misses, both
ratios and total are all zero, annotated with an error field holding
the failure description. -/
theorem snapshot_zeroed_on_store_failure (e : String) :
    (get_redis_cache_metrics (.error e)).hits = 0 ∧
    (get_redis_cache_metrics (.error e)).misses = 0 ∧
    (get_redis_cache_metrics (.error e)).hit_ratio = 0 ∧
    (get_redis_cache_metrics (.error e)).miss_ratio = 0 ∧
    (get_redis_cache_metrics (.error e)).hit_ratio_percentage = 0 ∧
    (get_redis_cache_metrics (.error e)).miss_ratio_percentage = 0 ∧
    (get_redis_cache_metrics (.error e)).total_operations = 0 ∧
    (get_redis_cache_metrics (.error e)).error = some e :=
  ⟨rfl, rfl, rfl, rfl, rfl, rfl, rfl, rfl⟩

/-- The analysis dictionary built by `get_cache_effectiveness`. -/
structure EffectivenessAnalysis where
  grade : String
  effectiveness : String
  hit_ratio : ℚ
  hit_ratio_percentage : ℚ
  recommendation : String
  total_operations : Nat
  deriving Repr, DecidableEq

/-- Embedding of `get_cache_effectiveness` (utils.py lines 106-158):
reads a metrics snapshot, then maps its hit ratio through the fixed
descending threshold chain, first match winning, pairing each grade
with its fixed effectiveness and recommendation strings. -/
def get_cache_effectiveness (conn : Except String RedisInfo) : EffectivenessAnalysis :=
  let metrics := get_redis_cache_metrics conn
  let hit_ratio := metrics.hit_ratio
  let ger : String × String × String :=
    if hit_ratio ≥ 9/10 then
      ("A+", "Excellent",
        "Cache is working very effectively. Consider increasing cache TTL for even better performance.")
    else if hit_ratio ≥ 8/10 then
      ("A", "Very Good", "Cache is effective. Monitor for any degradation.")
    else if hit_ratio ≥ 7/10 then
      ("B", "Good",
        "Cache is working well. Consider optimizing cache keys or increasing cache duration.")
    else if hit_ratio ≥ 5/10 then
      ("C", "Fair",
        "Cache effectiveness could be improved. Review cache strategies and TTL values.")
    else if hit_ratio ≥ 3/10 then
      ("D", "Poor",
        "Cache is not very effective. Consider implementing more aggressive caching or reviewing cache keys.")
    else
      ("F", "Very Poor",
        "Cache is ineffective. Consider redesigning caching strategy or investigating why cache misses are so high.")
  { grade := ger.1
    effectiveness := ger.2.1
    hit_ratio := hit_ratio
    hit_ratio_percentage := metrics.hit_ratio_percentage
    recommendation := ger.2.2
    total_operations := metrics.total_operations }

/-- The grade map exactly as the spec words it: inclusive-lower fixed
thresholds checked in descending order, first match wins.  This is the
spec-side reference against which the source's chain is compared. -/
def spec_grade (r : ℚ) : String :=
  if r ≥ 9/10 then "A+"
  else if r ≥ 8/10 then "A"
  else if r ≥ 7/10 then "B"
  else if r ≥ 5/10 then "C"
  else if r ≥ 3/10 then "D"
  else "F"

/-- The fixed recommendation string paired with each grade. -/
def spec_recommendation : String → String
  | "A+" =>
    "Cache is working very effectively. Consider increasing cache TTL for even better performance."
  | "A" => "Cache is effective. Monitor for any degradation."
  | "B" =>
    "Cache is working well. Consider optimizing cache keys or increasing cache duration."
  | "C" =>
    "Cache effectiveness could be improved. Review cache strategies and TTL values."
  | "D" =>
    "Cache is not very effective. Consider implementing more aggressive caching or reviewing cache keys."
  | _ =>
    "Cache is ineffective. Consider redesigning caching strategy or investigating why cache misses are so high."

/-- INFO reply with 90 keyspace hits and 10 keyspace misses. -/
def info_90_10 : RedisInfo :=
  { stats := some { keyspace_hits := some 90, keyspace_misses := some 10 }
    redis_version := none, connected_clients := none, used_memory_human := none
    uptime_in_seconds := none, uptime_in_days := none }

/-- INFO reply with 0 keyspace hits and 0 keyspace misses. -/
def info_0_0 : RedisInfo :=
  { stats := some { keyspace_hits := some 0, keyspace_misses := some 0 }
    redis_version := none, connected_clients := none, used_memory_human := none
    uptime_in_seconds := none, uptime_in_days := none }

/-- C4: the grading operation maps the hit ratio to a grade through the
fixed inclusive-lower thresholds in descending order, first match
winning, each grade paired with its fixed recommendation string; in
particular hits=90, misses=10 yields ratio 9/10 and grade A+, and
hits=0, misses=0 yields ratio 0 and grade F. -/
theorem cache_grades_by_fixed_thresholds (conn : Except String RedisInfo) :
    (get_cache_effectiveness conn).grade =
      spec_grade ((get_cache_effectiveness conn).hit_ratio) ∧
    (get_cache_effectiveness conn).recommendation =
      spec_recommendation ((get_cache_effectiveness conn).grade) ∧
    (get_cache_effectiveness (.ok info_90_10)).hit_ratio = 9/10 ∧
    (get_cache_effectiveness (.ok info_90_10)).grade = "A+" ∧
    (get_cache_effectiveness (.ok info_0_0)).hit_ratio = 0 ∧
    (get_cache_effectiveness (.ok info_0_0)).grade = "F" := by
  have main1 : ∀ c, (get_cache_effectiveness c).grade =
      spec_grade ((get_cache_effectiveness c).hit_ratio) := by
    intro c
    simp only [get_cache_effectiveness, spec_grade]
    split_ifs <;> rfl
  have main2 : ∀ c, (get_cache_effectiveness c).recommendation =
      spec_recommendation ((get_cache_effectiveness c).grade) := by
    intro c
    simp only [get_cache_effectiveness]
    split_ifs <;> rfl
  have hr90 : (get_cache_effectiveness (.ok info_90_10)).hit_ratio = 9/10 := by
    simp only [get_cache_effectiveness, get_redis_cache_metrics, info_90_10,
      Option.getD_some]
    norm_num
  have hr0 : (get_cache_effectiveness (.ok info_0_0)).hit_ratio = 0 := by
    simp only [get_cache_effectiveness, get_redis_cache_metrics, info_0_0,
      Option.getD_some]
    norm_num
  refine ⟨main1 _, main2 _, hr90, ?_, hr0, ?_⟩
  · rw [main1 _, hr90]
    norm_num [spec_grade]
  · rw [main1 _, hr0]
    norm_num [spec_grade]

/-
The `clear_all_property_related_cache` utility (signals.py lines
68-100).  It deletes the two named keys, then, only when the backend
has a `delete_pattern` attribute (django-redis provides it; other
backends do not), sweeps the outer page-cache keys matching a redis
glob.  The `hasattr` capability probe is modelled by the Bool argument
`has_delete_pattern`.  The source's `cache_patterns` local is
documentation only (never read) and is not modelled.
-/

/-- Redis glob matching restricted to the metacharacters the swept
pattern uses (`*` any run, `?` any single character; everything else
literal). -/
def globMatchAux : List Char → List Char → Bool
  | [], [] => true
  | [], _ :: _ => false
  | '*' :: ps, [] => globMatchAux ps []
  | '*' :: ps, c :: cs => globMatchAux ps (c :: cs) || globMatchAux ('*' :: ps) cs
  | '?' :: ps, _ :: cs => globMatchAux ps cs
  | _ :: _, [] => false
  | p :: ps, c :: cs => p == c && globMatchAux ps cs
termination_by ps cs => ps.length + cs.length

/-- Whether a key matches a redis glob pattern. -/
def redis_pattern_match (pattern key : String) : Bool :=
  globMatchAux pattern.data key.data

/-- The outer page-cache glob swept by `clear_all_property_related_cache`. -/
def page_cache_pattern : String :=
  ":1:views.decorators.cache.cache_page.*properties*"

/-- Embedding of django-redis `cache.delete_pattern(pattern)`: deletes
every key matching the glob, returning how many were deleted. -/
def delete_pattern (store : Store) (pattern : String) : Nat × Store :=
  ((store.filter (fun p => redis_pattern_match pattern p.1)).length,
    store.filter (fun p => !redis_pattern_match pattern p.1))

/-- Embedding of `clear_all_property_related_cache` (signals.py lines
68-100): deletes `all_properties` and `property_count` counting each
present key, then sweeps the page-cache glob only if the backend
supports `delete_pattern`; otherwise that step is skipped silently. -/
def clear_all_property_related_cache (has_delete_pattern : Bool) (store : Store) :
    Nat × Store :=
  let r1 := cache_delete store "all_properties"
  let c1 : Nat := if r1.1 then 1 else 0
  let r2 := cache_delete r1.2 "property_count"
  let c2 : Nat := c1 + (if r2.1 then 1 else 0)
  if has_delete_pattern then
    let rp := delete_pattern r2.2 page_cache_pattern
    (c2 + rp.1, rp.2)
  else
    (c2, r2.2)

/-- C7: when the configured backend does not support pattern deletion,
`clear_all_property_related_cache` silently skips the sweep — the
returned store differs from the input only by the two named keys, which
are still deleted, and the returned total counts exactly the named keys
that were present. -/
theorem clear_all_silent_noop_without_pattern_delete (store : Store) :
    (clear_all_property_related_cache false store).1 =
      (cache_keys_to_delete.filter (key_present store)).length ∧
    (clear_all_property_related_cache false store).2 =
      (store.filter (fun p => p.1 != "all_properties")).filter
        (fun p => p.1 != "property_count") ∧
    ((clear_all_property_related_cache false store).2).lookup "all_properties" = none ∧
    ((clear_all_property_related_cache false store).2).lookup "property_count" = none := by
  have hne : ("property_count" : String) ≠ "all_properties" := by decide
  have hany := any_filter_ne store "property_count" "all_properties" hne
  refine ⟨?_, rfl, ?_, ?_⟩
  · cases h1 : store.any (fun p => p.1 == "all_properties") <;>
      cases h2 : store.any (fun p => p.1 == "property_count") <;>
        simp [clear_all_property_related_cache, cache_delete, cache_keys_to_delete,
          key_present, h1, h2, hany.trans h2, List.filter_cons]
  · exact lookup_none_filter _ _ _ (lookup_filter_ne_self store "all_properties")
  · exact lookup_filter_ne_self _ _

/-- TTL of the outer response cache on the JSON listing endpoint:
`@cache_page(60 * 15)` on `property_list` (views.py line 86). -/
def property_list_page_ttl : Nat := 60 * 15

/-- TTL of the outer response cache on the HTML listing endpoint:
`@cache_page(60 * 15)` on `property_list_html` (views.py line 129). -/
def property_list_html_page_ttl : Nat := 60 * 15

/-- Modelled from the spec: the Listing Cache TTL of the
`all_properties` entry written by `get_all_properties`.  That function
is imported by views.py from properties/utils.py but its definition is
absent from the source tree; the spec fixes the TTL at 3600 seconds
(and the views' own metadata strings state a 1 hour queryset cache). -/
def all_properties_listing_ttl : Nat := 3600

/-- C8: the outer response cache TTL is the fixed constant 900 seconds
(60*15) on both listing endpoints, and it does not exceed the listing
cache TTL of 3600 seconds. -/
theorem outer_ttl_fixed_and_bounded_by_listing_ttl :
    property_list_page_ttl = 900 ∧
    property_list_html_page_ttl = 900 ∧
    property_list_page_ttl ≤ all_properties_listing_ttl ∧
    property_list_html_page_ttl ≤ all_properties_listing_ttl := by
  refine ⟨rfl, rfl, by decide, by decide⟩

/-
Key inventory (`get_cache_keys_info`, utils.py lines 161-229).
Keys are categorized by case-insensitive substring match, in the fixed
order properties / cache / session / other, first match winning; the
first 5 property keys and first 3 other keys get their TTLs sampled.
The redis connection's key listing and per-key TTL are inputs here
(`all_keys` and `ttl`); the per-key try/except around `redis_conn.ttl`
only substitutes a placeholder on failure and is not modelled.
-/

/-- Python's `str.lower()`. -/
def pyLower (s : String) : String := s.map Char.toLower

/-- Character-list prefix test. -/
def isPrefixChars : List Char → List Char → Bool
  | [], _ => true
  | _ :: _, [] => false
  | a :: as, b :: bs => a == b && isPrefixChars as bs

/-- Character-list substring containment. -/
def containsSeq : List Char → List Char → Bool
  | needle, [] => isPrefixChars needle []
  | needle, c :: rest => isPrefixChars needle (c :: rest) || containsSeq needle rest

/-- Python's `needle in hay` on strings: substring containment. -/
def pyIn (needle hay : String) : Bool := containsSeq needle.data hay.data

/-- First category check: `'properties' in key_str.lower()`. -/
def is_listing_key (k : String) : Bool := pyIn "properties" (pyLower k)

/-- Second category check: `'cache' in key_str.lower()`. -/
def is_cache_infra_key (k : String) : Bool := pyIn "cache" (pyLower k)

/-- Third category check: `'session' in key_str.lower()`. -/
def is_session_key (k : String) : Bool := pyIn "session" (pyLower k)

/-- Membership in the cache bucket under first-match-wins: not a
listing key, and matching `cache`. -/
def bucket_cache_pred (k : String) : Bool :=
  !is_listing_key k && is_cache_infra_key k

/-- Membership in the session bucket under first-match-wins. -/
def bucket_session_pred (k : String) : Bool :=
  !is_listing_key k && !is_cache_infra_key k && is_session_key k

/-- Membership in the residual `other` bucket: no label matched. -/
def is_other_key (k : String) : Bool :=
  !is_listing_key k && !is_cache_infra_key k && !is_session_key k

/-- The `key_patterns` count dictionary. -/
structure KeyPatterns where
  properties : Nat
  cache : Nat
  session : Nat
  other : Nat
  deriving Repr, DecidableEq

/-- The loop state of the categorization `for` loop: the two collected
key lists and the per-category counts. -/
structure KeyBuckets where
  property_keys : List String
  other_keys : List String
  key_patterns : KeyPatterns
  deriving Repr, DecidableEq

/-- One iteration of the categorization loop (utils.py lines 180-193). -/
def bucket_step (b : KeyBuckets) (key : String) : KeyBuckets :=
  if is_listing_key key then
    { property_keys := b.property_keys ++ [key]
      other_keys := b.other_keys
      key_patterns := { b.key_patterns with properties := b.key_patterns.properties + 1 } }
  else if is_cache_infra_key key then
    { property_keys := b.property_keys
      other_keys := b.other_keys
      key_patterns := { b.key_patterns with cache := b.key_patterns.cache + 1 } }
  else if is_session_key key then
    { property_keys := b.property_keys
      other_keys := b.other_keys
      key_patterns := { b.key_patterns with session := b.key_patterns.session + 1 } }
  else
    { property_keys := b.property_keys
      other_keys := b.other_keys ++ [key]
      key_patterns := { b.key_patterns with other := b.key_patterns.other + 1 } }

/-- The whole categorization loop over the listed keys, in order. -/
def categorize_keys (all_keys : List String) : KeyBuckets :=
  all_keys.foldl bucket_step ⟨[], [], ⟨0, 0, 0, 0⟩⟩

/-- The dictionary returned by `get_cache_keys_info`. -/
structure KeysInfo where
  total_keys : Nat
  key_patterns : KeyPatterns
  property_keys_count : Nat
  property_keys_samples : List String
  sample_ttls : List (String × Int)
  all_keys_count : Nat
  deriving Repr, DecidableEq

/-- Embedding of `get_cache_keys_info` (utils.py lines 161-221) on the
listed keys and the store's per-key TTL view. -/
def get_cache_keys_info (all_keys : List String) (ttl : String → Int) : KeysInfo :=
  let b := categorize_keys all_keys
  let sample_keys := b.property_keys.take 5 ++ b.other_keys.take 3
  { total_keys := all_keys.length
    key_patterns := b.key_patterns
    property_keys_count := b.property_keys.length
    property_keys_samples := b.property_keys.take 10
    sample_ttls := sample_keys.map (fun k => (k, ttl k))
    all_keys_count := all_keys.length }

theorem categorize_keys_foldl_eq (keys : List String) :
    ∀ b : KeyBuckets, keys.foldl bucket_step b =
      { property_keys := b.property_keys ++ keys.filter is_listing_key
        other_keys := b.other_keys ++ keys.filter is_other_key
        key_patterns :=
          { properties := b.key_patterns.properties
              + (keys.filter is_listing_key).length
            cache := b.key_patterns.cache + (keys.filter bucket_cache_pred).length
            session := b.key_patterns.session
              + (keys.filter bucket_session_pred).length
            other := b.key_patterns.other + (keys.filter is_other_key).length } } := by
  induction keys with
  | nil => intro b; simp
  | cons k rest ih =>
    intro b
    rw [List.foldl_cons, ih (bucket_step b k)]
    cases hp : is_listing_key k
    · cases hc : is_cache_infra_key k
      · cases hs : is_session_key k
        all_goals
          simp [bucket_step, hp, hc, hs, is_other_key, bucket_cache_pred,
            bucket_session_pred, List.filter_cons, List.append_assoc,
            KeyBuckets.mk.injEq, KeyPatterns.mk.injEq]
        all_goals omega
      · simp [bucket_step, hp, hc, is_other_key, bucket_cache_pred,
          bucket_session_pred, List.filter_cons, KeyBuckets.mk.injEq,
          KeyPatterns.mk.injEq]
        omega
    · simp [bucket_step, hp, is_other_key, bucket_cache_pred,
        bucket_session_pred, List.filter_cons, List.append_assoc,
        KeyBuckets.mk.injEq, KeyPatterns.mk.injEq]
      omega

theorem four_way_partition (keys : List String) :
    (keys.filter is_listing_key).length + (keys.filter bucket_cache_pred).length
      + (keys.filter bucket_session_pred).length
      + (keys.filter is_other_key).length = keys.length := by
  induction keys with
  | nil => rfl
  | cons k rest ih =>
    cases hp : is_listing_key k
    · cases hc : is_cache_infra_key k
      · cases hs : is_session_key k
        all_goals
          simp [List.filter_cons, hp, hc, hs, is_other_key,
            bucket_cache_pred, bucket_session_pred]
        all_goals omega
      · simp [List.filter_cons, hp, hc, is_other_key, bucket_cache_pred,
          bucket_session_pred]
        omega
    · simp [List.filter_cons, hp, is_other_key, bucket_cache_pred,
        bucket_session_pred]
      omega

/-- C9: every listed key lands in exactly one category, determined by
case-insensitive substring match against the fixed ordered labels with
the first match winning (properties, cache, session, other); the four
counts partition the keys, and TTLs are sampled for exactly the first 5
listing-related keys followed by the first 3 other-category keys. -/
theorem keys_bucketed_first_match_wins (all_keys : List String) (ttl : String → Int) :
    (categorize_keys all_keys).property_keys = all_keys.filter is_listing_key ∧
    (categorize_keys all_keys).other_keys = all_keys.filter is_other_key ∧
    (get_cache_keys_info all_keys ttl).key_patterns.properties =
      (all_keys.filter is_listing_key).length ∧
    (get_cache_keys_info all_keys ttl).key_patterns.cache =
      (all_keys.filter bucket_cache_pred).length ∧
    (get_cache_keys_info all_keys ttl).key_patterns.session =
      (all_keys.filter bucket_session_pred).length ∧
    (get_cache_keys_info all_keys ttl).key_patterns.other =
      (all_keys.filter is_other_key).length ∧
    (get_cache_keys_info all_keys ttl).key_patterns.properties
      + (get_cache_keys_info all_keys ttl).key_patterns.cache
      + (get_cache_keys_info all_keys ttl).key_patterns.session
      + (get_cache_keys_info all_keys ttl).key_patterns.other = all_keys.length ∧
    (get_cache_keys_info all_keys ttl).sample_ttls =
      ((all_keys.filter is_listing_key).take 5
        ++ (all_keys.filter is_other_key).take 3).map (fun k => (k, ttl k)) := by
  have hb := categorize_keys_foldl_eq all_keys ⟨[], [], ⟨0, 0, 0, 0⟩⟩
  refine ⟨?_, ?_, ?_, ?_, ?_, ?_, ?_, ?_⟩ <;>
    simp [get_cache_keys_info, categorize_keys, hb, four_way_partition]

/-
Synthetic load sampling (`monitor_cache_performance`, utils.py lines
254-316).  Probe i reads key `test_monitor_i`; on a miss it writes
`value_i`.  A probe's round-trip to the store can raise (store
unreachable mid-sample); the source installs no try/except and no
finally, so a raised probe aborts the function before the cleanup loop.
The per-probe failure pattern is the `fails` argument and the measured
wall-clock per probe is the `elapsed` argument; an error carries the
store state at the moment of the raise so residual keys are observable.
-/

/-- The results dictionary of `monitor_cache_performance`. -/
structure MonitorResults where
  cache_hits : Nat
  cache_misses : Nat
  average_response_time : ℚ
  tests_performed : Nat
  hit_ratio : ℚ
  miss_ratio : ℚ
  deriving Repr, DecidableEq

/-- The i-th synthetic probe key `test_monitor_{i}`. -/
def test_key (i : Nat) : String := "test_monitor_" ++ toString i

/-- Python division: raises ZeroDivisionError on a zero denominator. -/
def pydiv (a b : ℚ) : Except String ℚ :=
  if b = 0 then .error "ZeroDivisionError: division by zero" else .ok (a / b)

/-- The probe loop (utils.py lines 278-298) over the given probe
indices, threading (hits, misses, total_time, store); a failing probe
raises, carrying the store state at that point. -/
def probe_loop (fails : Nat → Bool) (elapsed : Nat → ℚ) :
    List Nat → Nat × Nat × ℚ × Store → Except (String × Store) (Nat × Nat × ℚ × Store)
  | [], acc => .ok acc
  | i :: rest, (hits, misses, total_time, s) =>
    if fails i then .error ("ConnectionError", s)
    else
      match cache_get s (test_key i) with
      | none =>
        probe_loop fails elapsed rest
          (hits, misses + 1, total_time + elapsed i,
            cache_set s (test_key i) ("value_" ++ toString i))
      | some _ =>
        probe_loop fails elapsed rest (hits + 1, misses, total_time + elapsed i, s)

/-- The cleanup loop (utils.py lines 306-307): delete every probe key. -/
def cleanup_loop (is : List Nat) (s : Store) : Store :=
  is.foldl (fun st i => (cache_delete st (test_key i)).2) s

/-- Embedding of `monitor_cache_performance`: run the probes, compute
the statistics (the average first, its division unguarded; the two
ratios guarded by `sample_size > 0`), then clean up the probe keys.
An exception anywhere before the cleanup propagates. -/
def monitor_cache_performance (store : Store) (fails : Nat → Bool)
    (elapsed : Nat → ℚ) (sample_size : Nat) :
    Except (String × Store) (MonitorResults × Store) :=
  match probe_loop fails elapsed (List.range sample_size) (0, 0, 0, store) with
  | .error e => .error e
  | .ok (hits, misses, total_time, s) =>
    match pydiv total_time (sample_size : ℚ) with
    | .error msg => .error (msg, s)
    | .ok avg =>
      let hit_ratio : ℚ :=
        if sample_size > 0 then (hits : ℚ) / (sample_size : ℚ) else 0
      let miss_ratio : ℚ :=
        if sample_size > 0 then (misses : ℚ) / (sample_size : ℚ) else 0
      .ok ({ cache_hits := hits, cache_misses := misses,
             average_response_time := avg, tests_performed := sample_size,
             hit_ratio := hit_ratio, miss_ratio := miss_ratio },
           cleanup_loop (List.range sample_size) s)

/-- The all-probes-succeed failure pattern. -/
def no_probe_failures : Nat → Bool := fun _ => false

theorem probe_loop_no_fail (elapsed : Nat → ℚ) :
    ∀ (is : List Nat) (acc : Nat × Nat × ℚ × Store),
      ∃ acc', probe_loop no_probe_failures elapsed is acc = .ok acc' := by
  intro is
  induction is with
  | nil => exact fun acc => ⟨acc, rfl⟩
  | cons i rest ih =>
    intro acc
    obtain ⟨hits, misses, total_time, s⟩ := acc
    cases hg : cache_get s (test_key i) with
    | none =>
      obtain ⟨acc', h'⟩ := ih
        (hits, misses + 1, total_time + elapsed i,
          cache_set s (test_key i) ("value_" ++ toString i))
      exact ⟨acc', by simp [probe_loop, no_probe_failures, hg, h']⟩
    | some v =>
      obtain ⟨acc', h'⟩ := ih (hits + 1, misses, total_time + elapsed i, s)
      exact ⟨acc', by simp [probe_loop, no_probe_failures, hg, h']⟩

theorem foldl_delete_preserves_none (is : List Nat) :
    ∀ (s : Store) (k : String), s.lookup k = none →
      (cleanup_loop is s).lookup k = none := by
  induction is with
  | nil => exact fun s k h => h
  | cons i rest ih =>
    intro s k h
    exact ih _ k (lookup_none_filter s k _ h)

theorem cleanup_loop_lookup_none (is : List Nat) :
    ∀ (s : Store) (i : Nat), i ∈ is →
      (cleanup_loop is s).lookup (test_key i) = none := by
  induction is with
  | nil => intro s i h; cases h
  | cons j rest ih =>
    intro s i h
    rcases List.mem_cons.mp h with h | h
    · subst h
      exact foldl_delete_preserves_none rest _ _ (lookup_filter_ne_self s (test_key i))
    · exact ih _ i h

/-- C5, counterexample to the claim as stated: a sample of size 2 whose
second probe raises leaves the key written by the first probe in the
store — the exception propagates before the cleanup loop runs, so a
partial probe failure does leave residual synthetic keys. -/
theorem monitor_residual_key_on_probe_failure :
    monitor_cache_performance [] (fun i => i == 1) (fun _ => 0) 2 =
      .error ("ConnectionError", [("test_monitor_0", "value_0")]) ∧
    ([("test_monitor_0", "value_0")] : Store).lookup "test_monitor_0" =
      some "value_0" := by
  constructor
  · rfl
  · rfl

/-- C5 amended: for every n > 0 and every per-probe hit/miss pattern in
which no individual probe fails, the sampler returns successfully and
every synthetic key `test_monitor_i` (i < n) is absent from the
returned store; when an individual probe fails partway, the exception
propagates before cleanup (see the counterexample) and residual keys
can remain. -/
theorem monitor_cleanup_no_residual_keys (store : Store) (elapsed : Nat → ℚ)
    (n : Nat) (h : 0 < n) :
    ∃ res s', monitor_cache_performance store no_probe_failures elapsed n =
        .ok (res, s') ∧
      ((List.range n).all (fun i => (s'.lookup (test_key i)).isNone)) = true := by
  obtain ⟨⟨hits, misses, total_time, s⟩, hpl⟩ :=
    probe_loop_no_fail elapsed (List.range n) (0, 0, 0, store)
  have hne : ((n : ℕ) : ℚ) ≠ 0 := by
    exact_mod_cast Nat.pos_iff_ne_zero.mp h
  have hdiv : pydiv total_time ((n : ℕ) : ℚ) = .ok (total_time / (n : ℚ)) := by
    simp [pydiv, hne]
  refine Exists.intro
    { cache_hits := hits
      cache_misses := misses
      average_response_time := total_time / (n : ℚ)
      tests_performed := n
      hit_ratio := if n > 0 then (hits : ℚ) / (n : ℚ) else 0
      miss_ratio := if n > 0 then (misses : ℚ) / (n : ℚ) else 0 }
    (Exists.intro (cleanup_loop (List.range n) s) ⟨?_, ?_⟩)
  · simp only [monitor_cache_performance, hpl, hdiv]
  · rw [List.all_eq_true]
    intro i hi
    rw [cleanup_loop_lookup_none (List.range n) s i hi]
    rfl

/-- Witness: a concrete fail-free sample of size 2 on the empty store
returns successfully with no residual synthetic keys. -/
theorem monitor_cleanup_no_residual_keys_witness :
    ∃ res s', monitor_cache_performance [] no_probe_failures (fun _ => 0) 2 =
        .ok (res, s') ∧
      ((List.range 2).all (fun i => (s'.lookup (test_key i)).isNone)) = true :=
  monitor_cleanup_no_residual_keys [] (fun _ => 0) 2 (by norm_num)

/-- C10: the sampler has an implicit n > 0 requirement: called with
n = 0 it raises ZeroDivisionError while computing the average
round-trip latency (`total_time / sample_size` is unguarded, while the
hit/miss ratio divisions on the adjacent lines are guarded by n > 0),
for every store state, failure pattern and timing. -/
theorem monitor_zero_sample_raises_division_by_zero (store : Store)
    (fails : Nat → Bool) (elapsed : Nat → ℚ) :
    monitor_cache_performance store fails elapsed 0 =
      .error ("ZeroDivisionError: division by zero", store) := by
  simp [monitor_cache_performance, List.range_zero, probe_loop, pydiv]

end PropertyListings
